import Mathlib

/-!
Shallow embedding of the `rt_transit` ingestion-and-flatten pipeline.

Part 1 models the feed poller `run_continuous_ingestion` from
`src/raw/gtfs_rt_raw_ingest.py`: its mutable loop state (`last_data`,
`consecutive_errors`, the set of written Bronze files) and one loop
iteration, with the environment's behaviour for that iteration (what the
fetch returned, whether decode and the file write raise) supplied as an
explicit event.

Part 2 models the Silver transforms of `src/pipeline/gtfs.py`
(`silver_vehicle_positions`, `silver_trip_updates`, `silver_service_alerts`,
`silver_service_alerts_entities`) as pure functions from one Bronze record
to a list of output rows, with Spark's null-propagating column accessors
rendered as `Option.bind` chains and Spark's `explode` (which emits no row
for a null or empty array) rendered as `List.bind` over the modelled list.
-/

namespace RtTransit

/-- Raw payload bytes of one fetch (`response.content`). -/
abbrev Bytes := List Nat

/-- Mutable state of the `run_continuous_ingestion` loop:
`last_data` (initially `None`), `consecutive_errors` (initially 0), and the
sequence of Bronze records written so far, each identified by the payload
bytes it was decoded from. -/
structure PollerState where
  last_data : Option Bytes
  consecutive_errors : Nat
  log : List Bytes
deriving Repr, DecidableEq

/-- Environment behaviour for one loop iteration: `fetch` is the payload
returned by `fetch_gtfs_rt_data` (`none` means the fetch raised);
`decodeOk` is whether `protobuf_to_json` would succeed on that payload;
`writeOk` is whether the file write would succeed. `decodeOk` and `writeOk`
are only consulted on the changed-data branch, as in the source. -/
structure PollEvent where
  fetch : Option Bytes
  decodeOk : Bool
  writeOk : Bool
deriving Repr, DecidableEq

/-- Outcome of one loop iteration: either the loop continues (after
`time.sleep(0.5)`) with the new state, or the `raise` on reaching
`max_consecutive_errors` propagates out of the loop. -/
inductive StepOutcome where
  | continued (s : PollerState)
  | fatal (s : PollerState)
deriving Repr, DecidableEq

/-- State carried by either outcome. -/
def StepOutcome.state : StepOutcome → PollerState
  | .continued s => s
  | .fatal s => s

/-- Error path of the loop body (`except` block): increment
`consecutive_errors`; re-raise when it reaches `max_consecutive_errors`
(a local variable set to 10 in the source), otherwise continue. -/
def pollFail (maxErrors : Nat) (s : PollerState) : StepOutcome :=
  let errs := s.consecutive_errors + 1
  if maxErrors ≤ errs then
    .fatal { s with consecutive_errors := errs }
  else
    .continued { s with consecutive_errors := errs }

/-- One iteration of the `while True` body of `run_continuous_ingestion`:
fetch; if the payload differs from `last_data`, decode and write, then set
`last_data` and reset `consecutive_errors`; if it is byte-identical, skip
(nothing in the state changes); any raise in fetch, decode or write takes
the error path. -/
def pollStep (maxErrors : Nat) (s : PollerState) (ev : PollEvent) : StepOutcome :=
  match ev.fetch with
  | none => pollFail maxErrors s
  | some current =>
    if some current ≠ s.last_data then
      if ev.decodeOk then
        if ev.writeOk then
          .continued { last_data := some current, consecutive_errors := 0,
                       log := s.log ++ [current] }
        else pollFail maxErrors s
      else pollFail maxErrors s
    else
      .continued s

/-- Result of running the loop over a finite prefix of environment events:
either still looping, or terminated by the fatal `raise`. -/
inductive RunResult where
  | ok (s : PollerState)
  | fatal (s : PollerState)
deriving Repr, DecidableEq

/-- Run the polling loop over a list of per-iteration events; a fatal
outcome stops the loop (the `raise` propagates, so later events are never
processed). -/
def runPoll (maxErrors : Nat) (s : PollerState) : List PollEvent → RunResult
  | [] => .ok s
  | ev :: rest =>
    match pollStep maxErrors s ev with
    | .continued s' => runPoll maxErrors s' rest
    | .fatal s' => .fatal s'

/-- An event on which the iteration body raises from the given state:
either the fetch raised, or the payload was new (so decode and write run)
and decode or write raised. -/
def PollEvent.failsOn (ev : PollEvent) (s : PollerState) : Prop :=
  ev.fetch = none ∨
    ∃ b, ev.fetch = some b ∧ some b ≠ s.last_data ∧
      (ev.decodeOk = false ∨ ev.writeOk = false)

/-- Seconds slept at the bottom of every loop iteration. The source
executes `time.sleep(0.5)`; the sleep expression does not mention the
`poll_interval` parameter, so the model takes it and ignores it. -/
def iterationSleepSeconds (poll_interval : ℚ) : ℚ :=
  1 / 2

/-- Default of the `poll_interval` parameter
(`DEFAULT_POLL_INTERVAL_SECONDS = 5` in the source). -/
def DEFAULT_POLL_INTERVAL_SECONDS : ℚ := 5

/-! Part 2 — data model of the decoded feed document as the Silver
transforms in `src/pipeline/gtfs.py` access it. Optional protobuf
sub-messages and scalar fields are `Option`; repeated fields are `List`
(`MessageToDict` omits an empty repeated field, and Spark's `explode`
treats a null array exactly like an empty one, so both are `[]` here).
Numeric columns are `ℚ`; the epoch-to-string formatting of
`from_unixtime` is abstracted away by keeping the epoch seconds value,
which the claims never inspect. -/

/-- Trip descriptor (`trip` block of a vehicle position or trip update). -/
structure TripDescriptor where
  route_id : Option String
  direction_id : Option Nat
  start_date : Option String
  start_time : Option String
  schedule_relationship : Option String
deriving Repr, DecidableEq

/-- Position block of a vehicle position. -/
structure Position where
  latitude : Option ℚ
  longitude : Option ℚ
  bearing : Option ℚ
  speed : Option ℚ
  odometer : Option ℚ
deriving Repr, DecidableEq

/-- Vehicle descriptor (`vehicle.vehicle` block). -/
structure VehicleDescriptor where
  id : Option String
  label : Option String
deriving Repr, DecidableEq

/-- Vehicle-position variant payload (`entity.vehicle`). -/
structure VehiclePosition where
  vehicle : Option VehicleDescriptor
  trip : Option TripDescriptor
  position : Option Position
  current_status : Option String
  occupancy_status : Option String
  stop_id : Option String
  timestamp : Option Nat
deriving Repr, DecidableEq

/-- Arrival or departure prediction of a stop time update. -/
structure StopTimeEvent where
  time : Option Nat
  uncertainty : Option Int
deriving Repr, DecidableEq

/-- Stop-time properties block (`stop_time_properties`). -/
structure StopTimeProperties where
  assigned_stop_id : Option String
deriving Repr, DecidableEq

/-- One element of a trip update's `stop_time_update` list. -/
structure StopTimeUpdate where
  stop_id : Option String
  stop_sequence : Option Nat
  schedule_relationship : Option String
  arrival : Option StopTimeEvent
  departure : Option StopTimeEvent
  stop_time_properties : Option StopTimeProperties
deriving Repr, DecidableEq

/-- Trip-update variant payload (`entity.trip_update`). -/
structure TripUpdate where
  trip : Option TripDescriptor
  timestamp : Option Nat
  stop_time_update : List StopTimeUpdate
deriving Repr, DecidableEq

/-- One `{language, text}` pair of a translated string. -/
structure Translation where
  text : Option String
  language : Option String
deriving Repr, DecidableEq

/-- Multi-language text field (`header_text`, `description_text`, `url`). -/
structure TranslatedString where
  translation : List Translation
deriving Repr, DecidableEq

/-- One active period of an alert; the proto field `end` is a Lean keyword
and is rendered `finish`. -/
structure ActivePeriod where
  start : Option Nat
  finish : Option Nat
deriving Repr, DecidableEq

/-- One element of an alert's `informed_entity` list. -/
structure EntitySelector where
  agency_id : Option String
  route_id : Option String
  stop_id : Option String
deriving Repr, DecidableEq

/-- Alert variant payload (`entity.alert`). -/
structure Alert where
  cause : Option String
  effect : Option String
  severity_level : Option String
  header_text : Option TranslatedString
  description_text : Option TranslatedString
  url : Option TranslatedString
  active_period : List ActivePeriod
  informed_entity : List EntitySelector
deriving Repr, DecidableEq

/-- One element of the decoded document's `entity` list; which of the three
optional sub-fields is populated identifies the variant. -/
structure FeedEntity where
  id : Option String
  vehicle : Option VehiclePosition
  trip_update : Option TripUpdate
  alert : Option Alert
deriving Repr, DecidableEq

/-- Feed header (`header` block), carrying the feed timestamp. -/
structure FeedHeader where
  timestamp : Option Nat
deriving Repr, DecidableEq

/-- One Bronze record as the Silver transforms read it: the decoded
document (`header`, `entity`) plus the `dt` partition column. -/
structure BronzeRecord where
  header : Option FeedHeader
  entity : List FeedEntity
  dt : Option String
deriving Repr, DecidableEq

/-- Spark's `concat`: null if any argument is null, else the
concatenation. -/
def sparkConcat : List (Option String) → Option String
  | [] => some ""
  | x :: xs => do
    let s ← x
    let rest ← sparkConcat xs
    pure (s ++ rest)

/-- Spark's `explode` over a possibly-null array column: no output row for
a null array (and none for an empty one). -/
def sparkExplode {α : Type} (xs : Option (List α)) : List α :=
  xs.getD []

/-- Element `[0]` of a possibly-null array column: null when the column is
null or the array is empty. -/
def sparkIndexZero {α : Type} (xs : Option (List α)) : Option α :=
  (xs.getD []).head?

/-- Output row of `silver_vehicle_positions` (columns in select order;
`file_metadata`/`ingestion_timestamp` are runtime metadata outside the
decoded document and are not modelled). -/
structure VehiclePositionRow where
  entity_id : Option String
  vehicle_id : Option String
  vehicle_label : Option String
  route_id : Option String
  direction_id : Option Nat
  trip_start_date : Option String
  trip_start_time : Option String
  schedule_relationship : Option String
  latitude : Option ℚ
  longitude : Option ℚ
  bearing : Option ℚ
  speed_mps : Option ℚ
  odometer : Option ℚ
  current_status : Option String
  occupancy_status : Option String
  current_stop_id : Option String
  vehicle_timestamp : Option Nat
  feed_timestamp : Option Nat
  dt : Option String
  speed_kmh : Option ℚ
  bearing_degrees : Option ℚ
  geometry_point : Option ℚ × Option ℚ
deriving Repr, DecidableEq

/-- Column extraction of `silver_vehicle_positions` for one exploded
entity: every access through `entity_exploded.vehicle....` propagates null
through missing sub-blocks; `speed_kmh` is `speed * 3.6` (null times a
literal is null); `bearing_degrees` is
`when(bearing.isNotNull, bearing).otherwise(null)`; `geometry_point` is the
`(longitude, latitude)` struct. -/
def mkVehiclePositionRow (hd : Option FeedHeader) (d : Option String)
    (e : FeedEntity) : VehiclePositionRow :=
  let v := e.vehicle
  let trip := v.bind VehiclePosition.trip
  let pos := v.bind VehiclePosition.position
  { entity_id := e.id
    vehicle_id := (v.bind VehiclePosition.vehicle).bind VehicleDescriptor.id
    vehicle_label := (v.bind VehiclePosition.vehicle).bind VehicleDescriptor.label
    route_id := trip.bind TripDescriptor.route_id
    direction_id := trip.bind TripDescriptor.direction_id
    trip_start_date := trip.bind TripDescriptor.start_date
    trip_start_time := trip.bind TripDescriptor.start_time
    schedule_relationship := trip.bind TripDescriptor.schedule_relationship
    latitude := pos.bind Position.latitude
    longitude := pos.bind Position.longitude
    bearing := pos.bind Position.bearing
    speed_mps := pos.bind Position.speed
    odometer := pos.bind Position.odometer
    current_status := v.bind VehiclePosition.current_status
    occupancy_status := v.bind VehiclePosition.occupancy_status
    current_stop_id := v.bind VehiclePosition.stop_id
    vehicle_timestamp := v.bind VehiclePosition.timestamp
    feed_timestamp := hd.bind FeedHeader.timestamp
    dt := d
    speed_kmh := (pos.bind Position.speed).map (fun sp => sp * (36 / 10 : ℚ))
    bearing_degrees :=
      match pos.bind Position.bearing with
      | some bg => some bg
      | none => none
    geometry_point := (pos.bind Position.longitude, pos.bind Position.latitude) }

/-- The `silver_vehicle_positions` transform on one Bronze record: explode
the `entity` array (one output row per entity — the select applies no
filter on which variant is populated), then extract the columns. -/
def silver_vehicle_positions (r : BronzeRecord) : List VehiclePositionRow :=
  r.entity.map (mkVehiclePositionRow r.header r.dt)

/-- Output row of `silver_trip_updates` (columns in final select order). -/
structure TripStopUpdateRow where
  entity_id : Option String
  route_id : Option String
  direction_id : Option Nat
  trip_start_date : Option String
  trip_start_time : Option String
  trip_schedule_relationship : Option String
  trip_update_timestamp : Option Nat
  feed_timestamp : Option Nat
  stop_id : Option String
  stop_sequence : Option Nat
  stop_schedule_relationship : Option String
  predicted_arrival_time : Option Nat
  arrival_uncertainty_seconds : Option Int
  predicted_departure_time : Option Nat
  departure_uncertainty_seconds : Option Int
  assigned_stop_id : Option String
  dt : Option String
  trip_id : Option String
deriving Repr, DecidableEq

/-- Column extraction of `silver_trip_updates` for one (entity, stop time
update) pair produced by the two nested explodes; `trip_id` is
`concat(route_id, "_", trip_start_date, "_", trip_start_time)` with
Spark `concat` null semantics. -/
def mkTripStopUpdateRow (hd : Option FeedHeader) (d : Option String)
    (e : FeedEntity) (su : StopTimeUpdate) : TripStopUpdateRow :=
  let tu := e.trip_update
  let trip := tu.bind TripUpdate.trip
  { entity_id := e.id
    route_id := trip.bind TripDescriptor.route_id
    direction_id := trip.bind TripDescriptor.direction_id
    trip_start_date := trip.bind TripDescriptor.start_date
    trip_start_time := trip.bind TripDescriptor.start_time
    trip_schedule_relationship := trip.bind TripDescriptor.schedule_relationship
    trip_update_timestamp := tu.bind TripUpdate.timestamp
    feed_timestamp := hd.bind FeedHeader.timestamp
    stop_id := su.stop_id
    stop_sequence := su.stop_sequence
    stop_schedule_relationship := su.schedule_relationship
    predicted_arrival_time := su.arrival.bind StopTimeEvent.time
    arrival_uncertainty_seconds := su.arrival.bind StopTimeEvent.uncertainty
    predicted_departure_time := su.departure.bind StopTimeEvent.time
    departure_uncertainty_seconds := su.departure.bind StopTimeEvent.uncertainty
    assigned_stop_id := su.stop_time_properties.bind StopTimeProperties.assigned_stop_id
    dt := d
    trip_id := sparkConcat [trip.bind TripDescriptor.route_id, some "_",
      trip.bind TripDescriptor.start_date, some "_",
      trip.bind TripDescriptor.start_time] }

/-- The inner explode's array column
`entity_exploded.trip_update.stop_time_update`: null (hence zero rows) when
the entity has no trip-update variant. -/
def stopTimeUpdatesOf (e : FeedEntity) : List StopTimeUpdate :=
  sparkExplode (e.trip_update.map TripUpdate.stop_time_update)

/-- The `silver_trip_updates` transform on one Bronze record: explode the
`entity` array, then explode each entity's `stop_time_update` list (an
entity whose list is null or empty contributes no rows), then extract the
columns. -/
def silver_trip_updates (r : BronzeRecord) : List TripStopUpdateRow :=
  r.entity.flatMap (fun e =>
    (stopTimeUpdatesOf e).map (mkTripStopUpdateRow r.header r.dt e))

/-- Output row of `silver_service_alerts`. -/
structure ServiceAlertRow where
  alert_id : Option String
  cause : Option String
  effect : Option String
  severity_level : Option String
  header_text : Option String
  header_language : Option String
  description_text : Option String
  description_language : Option String
  url : Option String
  active_periods : Option (List ActivePeriod)
  informed_entities : Option (List EntitySelector)
  feed_timestamp : Option Nat
  dt : Option String
deriving Repr, DecidableEq

/-- Column extraction of `silver_service_alerts` for one exploded entity:
text columns take element `[0]` of the `translation` array (null when the
alert, the text field or the array is missing). -/
def mkServiceAlertRow (hd : Option FeedHeader) (d : Option String)
    (e : FeedEntity) : ServiceAlertRow :=
  let a := e.alert
  { alert_id := e.id
    cause := a.bind Alert.cause
    effect := a.bind Alert.effect
    severity_level := a.bind Alert.severity_level
    header_text :=
      (sparkIndexZero ((a.bind Alert.header_text).map
        TranslatedString.translation)).bind Translation.text
    header_language :=
      (sparkIndexZero ((a.bind Alert.header_text).map
        TranslatedString.translation)).bind Translation.language
    description_text :=
      (sparkIndexZero ((a.bind Alert.description_text).map
        TranslatedString.translation)).bind Translation.text
    description_language :=
      (sparkIndexZero ((a.bind Alert.description_text).map
        TranslatedString.translation)).bind Translation.language
    url :=
      (sparkIndexZero ((a.bind Alert.url).map
        TranslatedString.translation)).bind Translation.text
    active_periods := a.map Alert.active_period
    informed_entities := a.map Alert.informed_entity
    feed_timestamp := hd.bind FeedHeader.timestamp
    dt := d }

/-- The `silver_service_alerts` transform on one Bronze record: explode the
`entity` array (one row per entity, no variant filter), then extract the
columns. -/
def silver_service_alerts (r : BronzeRecord) : List ServiceAlertRow :=
  r.entity.map (mkServiceAlertRow r.header r.dt)

/-- Output row of `silver_service_alerts_entities`. -/
structure AlertEntityRow where
  alert_id : Option String
  cause : Option String
  effect : Option String
  severity_level : Option String
  header_text : Option String
  description_text : Option String
  url : Option String
  feed_timestamp : Option Nat
  affected_agency_id : Option String
  affected_route_id : Option String
  affected_stop_id : Option String
  dt : Option String
deriving Repr, DecidableEq

/-- Column extraction of `silver_service_alerts_entities` for one
(alert row, informed entity) pair. -/
def mkAlertEntityRow (ar : ServiceAlertRow) (ie : EntitySelector) :
    AlertEntityRow :=
  { alert_id := ar.alert_id
    cause := ar.cause
    effect := ar.effect
    severity_level := ar.severity_level
    header_text := ar.header_text
    description_text := ar.description_text
    url := ar.url
    feed_timestamp := ar.feed_timestamp
    affected_agency_id := ie.agency_id
    affected_route_id := ie.route_id
    affected_stop_id := ie.stop_id
    dt := ar.dt }

/-- The `silver_service_alerts_entities` transform: it reads the
`silver_service_alerts` table and explodes each row's `informed_entities`
array (no rows for a null or empty array). -/
def silver_service_alerts_entities (rows : List ServiceAlertRow) :
    List AlertEntityRow :=
  rows.flatMap (fun ar =>
    (sparkExplode ar.informed_entities).map (mkAlertEntityRow ar))

/-- The alert-entities pipeline on one Bronze record, as composed in the
source dataflow (`silver_service_alerts_entities` reads
`silver_service_alerts`). -/
def alertEntitiesOfRecord (r : BronzeRecord) : List AlertEntityRow :=
  silver_service_alerts_entities (silver_service_alerts r)

/-! Concrete feed fragments used by the witness theorems. -/

/-- Example stop-time update number `i` (stop id `s<i>`, sequence `i`). -/
def suEx (i : Nat) : StopTimeUpdate :=
  { stop_id := some ("s" ++ toString i), stop_sequence := some i,
    schedule_relationship := none, arrival := none, departure := none,
    stop_time_properties := none }

/-- Example trip descriptor with the join-key fields of the spec's
test vector. -/
def tripEx : TripDescriptor :=
  { route_id := some "55", direction_id := some 0,
    start_date := some "20250101", start_time := some "08:00:00",
    schedule_relationship := none }

/-- Example trip update with three stop-time updates. -/
def tuEx : TripUpdate :=
  { trip := some tripEx, timestamp := some 1700000000,
    stop_time_update := [suEx 1, suEx 2, suEx 3] }

/-- Example trip-update entity. -/
def entityTuEx : FeedEntity :=
  { id := some "tu1", vehicle := none, trip_update := some tuEx, alert := none }

/-- Example Bronze record carrying the trip-update entity. -/
def recordTuEx : BronzeRecord :=
  { header := some { timestamp := some 1700000000 },
    entity := [entityTuEx], dt := some "2025-01-01" }

/-- Example vehicle-position payload with speed 10 m/s and no trip block. -/
def vpEx : VehiclePosition :=
  { vehicle := some { id := some "v1", label := none }, trip := none,
    position := some ⟨some 60, some 24, none, some 10, none⟩,
    current_status := none, occupancy_status := none, stop_id := none,
    timestamp := some 1700000000 }

/-- Example vehicle-position entity. -/
def entityVpEx : FeedEntity :=
  { id := some "vp1", vehicle := some vpEx, trip_update := none, alert := none }

/-- Example Bronze record carrying the vehicle-position entity. -/
def recordVpEx : BronzeRecord :=
  { header := some { timestamp := some 1700000000 },
    entity := [entityVpEx], dt := some "2025-01-01" }

/-- Example entity with none of the three variants populated. -/
def entityEmptyEx : FeedEntity :=
  { id := some "e0", vehicle := none, trip_update := none, alert := none }

/-- Example Bronze record whose only entity has no vehicle-position
variant. -/
def recordNoVehicleEx : BronzeRecord :=
  { header := some { timestamp := some 100 },
    entity := [entityEmptyEx], dt := some "2025-01-01" }

/-- Example alert with two informed entities. -/
def alertEx : Alert :=
  { cause := some "STRIKE", effect := some "NO_SERVICE",
    severity_level := some "WARNING",
    header_text := some { translation := [{ text := some "hdr", language := some "en" }] },
    description_text := none, url := none, active_period := [],
    informed_entity := [{ agency_id := some "HSL", route_id := some "55", stop_id := none },
                        { agency_id := some "HSL", route_id := none, stop_id := some "st7" }] }

/-- Example alert entity. -/
def entityAlertEx : FeedEntity :=
  { id := some "al1", vehicle := none, trip_update := none, alert := some alertEx }

/-- Example Bronze record carrying the alert entity. -/
def recordAlertEx : BronzeRecord :=
  { header := some { timestamp := some 1700000000 },
    entity := [entityAlertEx], dt := some "2025-01-01" }

/-! Poller lemmas and claim theorems. -/

/-- On an event that raises, the iteration body runs its `except` block. -/
theorem pollStep_failsOn (m : Nat) (s : PollerState) (ev : PollEvent)
    (hfail : ev.failsOn s) :
    pollStep m s ev = pollFail m s := by
  rcases hfail with h | ⟨b, hb, hne, hdw⟩
  · simp [pollStep, h]
  · rcases hdw with hd | hw
    · simp [pollStep, hb, hne, hd]
    · cases hdec : ev.decodeOk
      · simp [pollStep, hb, hne, hdec]
      · simp [pollStep, hb, hne, hdec, hw]

/-- The error path only bumps the counter: `last_data` and the log are kept. -/
theorem pollFail_state (m : Nat) (s : PollerState) :
    (pollFail m s).state
      = { s with consecutive_errors := s.consecutive_errors + 1 } := by
  rw [pollFail]
  split <;> rfl

/-- A run of byte-identical fetches from a state already holding those bytes
changes nothing: every iteration takes the skip branch. -/
theorem runPoll_noop (m : Nat) (b : Bytes) (s : PollerState)
    (hs : s.last_data = some b) (evs : List PollEvent)
    (hall : ∀ ev ∈ evs, ev.fetch = some b) :
    runPoll m s evs = .ok s := by
  induction evs with
  | nil => rfl
  | cons ev rest ih =>
    have hf : ev.fetch = some b := hall ev (by simp)
    have hstep : pollStep m s ev = .continued s := by
      simp [pollStep, hf, hs]
    simp only [runPoll, hstep]
    exact ih (fun e he => hall e (by simp [he]))

/-- Running `k` consecutive fetch failures below the fatal threshold leaves
the loop alive, the counter at `+ k`, and writes nothing. -/
theorem runPoll_fetch_failures (m : Nat) :
    ∀ (k : Nat) (s : PollerState), s.consecutive_errors + k < m →
    runPoll m s (List.replicate k ⟨none, true, true⟩)
      = .ok ⟨s.last_data, s.consecutive_errors + k, s.log⟩ := by
  intro k
  induction k with
  | zero =>
    intro s h
    cases s
    simp [runPoll]
  | succ k ih =>
    intro s h
    have hstep : pollStep m s ⟨none, true, true⟩
        = .continued ⟨s.last_data, s.consecutive_errors + 1, s.log⟩ := by
      have hlt : ¬ m ≤ s.consecutive_errors + 1 := by omega
      cases s
      simp [pollStep, pollFail, hlt]
    simp only [List.replicate, runPoll, hstep]
    have hrec := ih ⟨s.last_data, s.consecutive_errors + 1, s.log⟩ (by simp; omega)
    simpa [Nat.add_assoc, Nat.add_comm, Nat.add_left_comm] using hrec

/-- C1: over a run of fetches that all return the same payload `b`, new to
the poller, where the first iteration's decode and write succeed, the
Bronze log gains exactly the one record written by the first iteration;
every byte-identical subsequent fetch is a no-op that writes nothing. -/
theorem unchanged_run_single_write (m : Nat) (s : PollerState) (b : Bytes)
    (evs : List PollEvent)
    (hlast : s.last_data ≠ some b)
    (hfirst : evs.head? = some ⟨some b, true, true⟩)
    (hall : ∀ ev ∈ evs, ev.fetch = some b) :
    runPoll m s evs = .ok ⟨some b, 0, s.log ++ [b]⟩ := by
  cases evs with
  | nil => simp at hfirst
  | cons ev rest =>
    have hev : ev = ⟨some b, true, true⟩ := by simpa using hfirst
    subst hev
    have hne : some b ≠ s.last_data := fun h => hlast h.symm
    have hstep : pollStep m s ⟨some b, true, true⟩
        = .continued ⟨some b, 0, s.log ++ [b]⟩ := by
      simp [pollStep, hne]
    simp only [runPoll, hstep]
    exact runPoll_noop m b _ rfl rest (fun e he => hall e (by simp [he]))

/-- Witness for C1: three identical fetches of payload `[7]` from the
initial state write exactly one Bronze record. -/
theorem unchanged_run_single_write_witness :
    runPoll 10 ⟨none, 0, []⟩ (List.replicate 3 ⟨some [7], true, true⟩)
      = .ok ⟨some [7], 0, [[7]]⟩ := by
  have h := unchanged_run_single_write 10 ⟨none, 0, []⟩ [7]
    (List.replicate 3 ⟨some [7], true, true⟩)
    (by simp) (by simp [List.replicate]) (by decide)
  simpa using h

/-- C2 (code bug): the loop's sleep is the constant `0.5` seconds from
`time.sleep(0.5)`; it does not equal the `poll_interval` argument at the
documented default `poll_interval = 5`, nor at any `poll_interval ≠ 0.5`. -/
theorem sleep_ignores_poll_interval :
    iterationSleepSeconds DEFAULT_POLL_INTERVAL_SECONDS = 1 / 2 ∧
    iterationSleepSeconds DEFAULT_POLL_INTERVAL_SECONDS
      ≠ DEFAULT_POLL_INTERVAL_SECONDS ∧
    ∀ p : ℚ, iterationSleepSeconds p = 1 / 2 := by
  refine ⟨rfl, ?_, fun p => rfl⟩
  norm_num [iterationSleepSeconds, DEFAULT_POLL_INTERVAL_SECONDS]

/-- Counterexample to C3: a successful byte-identical no-op iteration
(state holds payload `[1]`, error counter 3) does not reset the counter:
the iteration succeeds yet the counter stays 3, not 0. -/
theorem noop_success_keeps_counter :
    pollStep 10 ⟨some [1], 3, [[1]]⟩ ⟨some [1], true, true⟩
      = .continued ⟨some [1], 3, [[1]]⟩ ∧ (3 : Nat) ≠ 0 := by
  exact ⟨by decide, by decide⟩

/-- C3 (amended): the consecutive-error counter is reset to zero exactly by
a successful iteration that writes (changed payload, decode and write
succeed); a successful byte-identical no-op iteration leaves the whole
state — the counter included — unchanged. -/
theorem error_counter_reset_semantics (m : Nat) (s : PollerState)
    (b : Bytes) (db wb : Bool) :
    (s.last_data ≠ some b →
      pollStep m s ⟨some b, true, true⟩
        = .continued ⟨some b, 0, s.log ++ [b]⟩) ∧
    (s.last_data = some b →
      pollStep m s ⟨some b, db, wb⟩ = .continued s) := by
  constructor
  · intro h
    have hne : some b ≠ s.last_data := fun h2 => h h2.symm
    simp [pollStep, hne]
  · intro h
    simp [pollStep, h]

/-- Witness for C3 (amended) at concrete states: a write-success resets a
counter of 5 to 0, and a no-op with counter 5 keeps it at 5. -/
theorem error_counter_reset_semantics_witness :
    pollStep 10 ⟨some [1], 5, [[1]]⟩ ⟨some [2], true, true⟩
      = .continued ⟨some [2], 0, [[1], [2]]⟩ ∧
    pollStep 10 ⟨some [1], 5, [[1]]⟩ ⟨some [1], true, true⟩
      = .continued ⟨some [1], 5, [[1]]⟩ := by
  constructor
  · have h := (error_counter_reset_semantics 10 ⟨some [1], 5, [[1]]⟩ [2]
      true true).1 (by decide)
    simpa using h
  · exact (error_counter_reset_semantics 10 ⟨some [1], 5, [[1]]⟩ [1]
      true true).2 rfl

/-- C4: a failing iteration that brings the consecutive-error count up to
`max_consecutive_errors` makes the loop raise — later events are never
processed and the Bronze log is left as it was; a failing iteration below
the threshold just bumps the counter and continues, and any number `k` of
consecutive fetch failures below the threshold leaves the loop running with
nothing written. -/
theorem fatal_threshold (m k : Nat) (s : PollerState) (ev : PollEvent)
    (rest : List PollEvent) (hfail : ev.failsOn s) :
    (m ≤ s.consecutive_errors + 1 →
      runPoll m s (ev :: rest)
        = .fatal ⟨s.last_data, s.consecutive_errors + 1, s.log⟩) ∧
    (s.consecutive_errors + 1 < m →
      pollStep m s ev
        = .continued ⟨s.last_data, s.consecutive_errors + 1, s.log⟩) ∧
    (s.consecutive_errors + k < m →
      runPoll m s (List.replicate k ⟨none, true, true⟩)
        = .ok ⟨s.last_data, s.consecutive_errors + k, s.log⟩) := by
  have hstep := pollStep_failsOn m s ev hfail
  refine ⟨?_, ?_, fun h => runPoll_fetch_failures m k s h⟩
  · intro h
    have : pollStep m s ev
        = .fatal ⟨s.last_data, s.consecutive_errors + 1, s.log⟩ := by
      rw [hstep, pollFail]
      cases s
      simp [h]
    simp only [runPoll, this]
  · intro h
    rw [hstep, pollFail]
    cases s
    simp at h ⊢
    omega

/-- Witness for C4: with threshold 2 and one prior error, one more fetch
failure is fatal and writes nothing; with a fresh counter the same failure
continues with counter 1. -/
theorem fatal_threshold_witness :
    runPoll 2 ⟨some [9], 1, [[9]]⟩ [⟨none, true, true⟩]
      = .fatal ⟨some [9], 2, [[9]]⟩ ∧
    pollStep 2 ⟨some [9], 0, [[9]]⟩ ⟨none, true, true⟩
      = .continued ⟨some [9], 1, [[9]]⟩ := by
  constructor
  · exact (fatal_threshold 2 0 ⟨some [9], 1, [[9]]⟩ ⟨none, true, true⟩ []
      (Or.inl rfl)).1 (by decide)
  · exact (fatal_threshold 2 0 ⟨some [9], 0, [[9]]⟩ ⟨none, true, true⟩ []
      (Or.inl rfl)).2.1 (by decide)

/-- C10: a failing iteration leaves `last_data` (and the log) unchanged, so
when the loop continues and the same bytes are fetched again with decode
and write succeeding, they are written — not skipped as a duplicate. -/
theorem failure_preserves_last_data (m : Nat) (s : PollerState)
    (ev : PollEvent) (hfail : ev.failsOn s) :
    (pollStep m s ev).state.last_data = s.last_data ∧
    (pollStep m s ev).state.log = s.log ∧
    (∀ s' b, pollStep m s ev = .continued s' → ev.fetch = some b →
      pollStep m s' ⟨some b, true, true⟩
        = .continued ⟨some b, 0, s.log ++ [b]⟩) := by
  have hstep := pollStep_failsOn m s ev hfail
  have hstate := pollFail_state m s
  refine ⟨by rw [hstep, hstate], by rw [hstep, hstate], ?_⟩
  intro s' b hcont hb
  have hs' : s' = { s with consecutive_errors := s.consecutive_errors + 1 } := by
    have : (pollStep m s ev).state = s' := by rw [hcont]; rfl
    rw [hstep, hstate] at this
    exact this.symm
  have hne : some b ≠ s.last_data := by
    rcases hfail with h | ⟨b', hb', hne', _⟩
    · rw [h] at hb; exact absurd hb (by simp)
    · rw [hb] at hb'
      have hbb : b = b' := by exact Option.some.inj hb'
      exact hbb ▸ hne'
  subst hs'
  simp [pollStep, hne]

/-- Witness for C10: a decode failure on payload `[5]` keeps
`last_data = none`; fetching `[5]` again on the next iteration writes it. -/
theorem failure_preserves_last_data_witness :
    (pollStep 10 ⟨none, 0, []⟩ ⟨some [5], false, true⟩).state.last_data = none ∧
    pollStep 10 ⟨none, 1, []⟩ ⟨some [5], true, true⟩
      = .continued ⟨some [5], 0, [[5]]⟩ := by
  have h := failure_preserves_last_data 10 ⟨none, 0, []⟩ ⟨some [5], false, true⟩
    (Or.inr ⟨[5], rfl, by simp, Or.inl rfl⟩)
  refine ⟨h.1, ?_⟩
  exact h.2.2 ⟨none, 1, []⟩ [5] (by decide) rfl

/-! Silver transform claim theorems. -/

/-- C5: the rows of `silver_trip_updates` decompose per entity; a
trip-update entity contributes exactly one row per element of its
stop-time-update list (zero elements give zero rows), every such row
carries the entity's `entity_id` and `route_id`, and the rows' `stop_id`
and `stop_sequence` columns are exactly those of the list's elements, in
order. -/
theorem trip_update_fanout (hd : Option FeedHeader) (d : Option String)
    (pre post : List FeedEntity) (e : FeedEntity) (tu : TripUpdate)
    (htu : e.trip_update = some tu) :
    silver_trip_updates ⟨hd, pre ++ e :: post, d⟩
      = silver_trip_updates ⟨hd, pre, d⟩ ++ silver_trip_updates ⟨hd, [e], d⟩
          ++ silver_trip_updates ⟨hd, post, d⟩ ∧
    (silver_trip_updates ⟨hd, [e], d⟩).length = tu.stop_time_update.length ∧
    (∀ row ∈ silver_trip_updates ⟨hd, [e], d⟩,
      row.entity_id = e.id ∧
      row.route_id = tu.trip.bind TripDescriptor.route_id) ∧
    (silver_trip_updates ⟨hd, [e], d⟩).map TripStopUpdateRow.stop_id
      = tu.stop_time_update.map StopTimeUpdate.stop_id ∧
    (silver_trip_updates ⟨hd, [e], d⟩).map TripStopUpdateRow.stop_sequence
      = tu.stop_time_update.map StopTimeUpdate.stop_sequence := by
  refine ⟨?_, ?_, ?_, ?_, ?_⟩
  · simp [silver_trip_updates]
  · simp [silver_trip_updates, stopTimeUpdatesOf, sparkExplode, htu]
  · intro row hrow
    simp only [silver_trip_updates, List.flatMap_cons, List.flatMap_nil,
      List.append_nil, List.mem_map] at hrow
    obtain ⟨su, hsu, hrw⟩ := hrow
    subst hrw
    constructor
    · rfl
    · simp [mkTripStopUpdateRow, htu]
  · simp [silver_trip_updates, stopTimeUpdatesOf, sparkExplode, htu,
      List.map_map, mkTripStopUpdateRow, Function.comp]
  · simp [silver_trip_updates, stopTimeUpdatesOf, sparkExplode, htu,
      List.map_map, mkTripStopUpdateRow, Function.comp]

/-- Witness for C5: the example trip-update entity with three stop-time
updates yields exactly three rows carrying its entity id and route, with
the three stop ids in order. -/
theorem trip_update_fanout_witness :
    (silver_trip_updates ⟨recordTuEx.header, [entityTuEx], recordTuEx.dt⟩).length = 3 ∧
    (silver_trip_updates ⟨recordTuEx.header, [entityTuEx], recordTuEx.dt⟩).map
        TripStopUpdateRow.stop_id = [some "s1", some "s2", some "s3"] := by
  have h := trip_update_fanout recordTuEx.header recordTuEx.dt [] [] entityTuEx
    tuEx rfl
  refine ⟨?_, ?_⟩
  · rw [h.2.1]; rfl
  · rw [h.2.2.2.1]; rfl

/-- C6: on every row `silver_trip_updates` emits whose `route_id`,
`trip_start_date` and `trip_start_time` are present, the derived `trip_id`
is those three strings joined by `_`. -/
theorem trip_id_derivation (r : BronzeRecord) (row : TripStopUpdateRow)
    (hrow : row ∈ silver_trip_updates r)
    (rid sd st : String)
    (h1 : row.route_id = some rid) (h2 : row.trip_start_date = some sd)
    (h3 : row.trip_start_time = some st) :
    row.trip_id = some (rid ++ "_" ++ sd ++ "_" ++ st) := by
  rw [silver_trip_updates, List.mem_flatMap] at hrow
  obtain ⟨e, he, hrow⟩ := hrow
  rw [List.mem_map] at hrow
  obtain ⟨su, hsu, hrw⟩ := hrow
  subst hrw
  simp only [mkTripStopUpdateRow] at h1 h2 h3 ⊢
  rw [sparkConcat, sparkConcat, sparkConcat, sparkConcat, sparkConcat,
    sparkConcat]
  simp only [h1, h2, h3, Option.bind_eq_bind, Option.some_bind,
    Option.bind_some]
  simp [String.append_assoc, String.append_empty]

/-- Witness for C6 at the spec's test vector: route `"55"`, start date
`"20250101"`, start time `"08:00:00"` give
`trip_id = "55_20250101_08:00:00"`. -/
theorem trip_id_derivation_witness :
    (mkTripStopUpdateRow recordTuEx.header recordTuEx.dt entityTuEx
      (suEx 1)).trip_id = some "55_20250101_08:00:00" := by
  have h := trip_id_derivation recordTuEx
    (mkTripStopUpdateRow recordTuEx.header recordTuEx.dt entityTuEx (suEx 1))
    (by simp [silver_trip_updates, recordTuEx, entityTuEx, stopTimeUpdatesOf,
      sparkExplode, tuEx])
    "55" "20250101" "08:00:00" rfl rfl rfl
  rw [h]
  rfl

/-- C7: on every row `silver_vehicle_positions` emits, a present
`speed_mps = v` gives `speed_kmh = v * 3.6` (so `10` gives exactly `36`),
and an absent `speed_mps` gives an absent `speed_kmh`, never zero. -/
theorem speed_kmh_derivation (r : BronzeRecord) (row : VehiclePositionRow)
    (hrow : row ∈ silver_vehicle_positions r) :
    (∀ v : ℚ, row.speed_mps = some v →
      row.speed_kmh = some (v * (36 / 10 : ℚ))) ∧
    (row.speed_mps = none → row.speed_kmh = none) := by
  rw [silver_vehicle_positions, List.mem_map] at hrow
  obtain ⟨e, he, hrw⟩ := hrow
  subst hrw
  constructor
  · intro v hv
    simp only [mkVehiclePositionRow] at hv ⊢
    rw [hv]
    rfl
  · intro hv
    simp only [mkVehiclePositionRow] at hv ⊢
    rw [hv]
    rfl

/-- Witness for C7: the example vehicle entity with `speed_mps = 10` has
`speed_kmh = 36` exactly, and `10 * 3.6 = 36`. -/
theorem speed_kmh_derivation_witness :
    (mkVehiclePositionRow recordVpEx.header recordVpEx.dt entityVpEx).speed_kmh
      = some 36 := by
  have h := (speed_kmh_derivation recordVpEx
    (mkVehiclePositionRow recordVpEx.header recordVpEx.dt entityVpEx)
    (by simp [silver_vehicle_positions, recordVpEx])).1 10 rfl
  rw [h]
  norm_num

/-- Counterexample to C8: the select of `silver_vehicle_positions` applies
no filter on which variant is populated, so a record whose only entity has
no vehicle-position variant still produces one row — the claim's "produces
no row" fails. -/
theorem vehicle_row_without_variant :
    entityEmptyEx.vehicle = none ∧
    (silver_vehicle_positions recordNoVehicleEx).length = 1 := by
  exact ⟨rfl, rfl⟩

/-- C8 (amended): `silver_vehicle_positions` emits exactly one row per
entity of the record — populated vehicle-position variant or not — with the
rows' entity ids matching the entities in order; every row comes from some
entity of the record, and a missing trip sub-block leaves that row's
trip-derived columns null while the row is still emitted. -/
theorem one_row_per_entity (r : BronzeRecord) :
    (silver_vehicle_positions r).length = r.entity.length ∧
    (silver_vehicle_positions r).map VehiclePositionRow.entity_id
      = r.entity.map FeedEntity.id ∧
    ∀ row ∈ silver_vehicle_positions r, ∃ e ∈ r.entity,
      row = mkVehiclePositionRow r.header r.dt e ∧
      (e.vehicle.bind VehiclePosition.trip = none →
        row.route_id = none ∧ row.direction_id = none ∧
        row.trip_start_date = none ∧ row.trip_start_time = none) := by
  refine ⟨by simp [silver_vehicle_positions], ?_, ?_⟩
  · simp [silver_vehicle_positions, List.map_map, mkVehiclePositionRow,
      Function.comp]
  · intro row hrow
    rw [silver_vehicle_positions, List.mem_map] at hrow
    obtain ⟨e, he, hrw⟩ := hrow
    refine ⟨e, he, hrw.symm, ?_⟩
    intro htrip
    subst hrw
    simp [mkVehiclePositionRow, htrip]

/-- Witness for C8 (amended): the example record whose entity carries a
vehicle block without a trip block yields exactly one row, and that row's
`route_id` is null. -/
theorem one_row_per_entity_witness :
    (silver_vehicle_positions recordVpEx).length = recordVpEx.entity.length ∧
    (mkVehiclePositionRow recordVpEx.header recordVpEx.dt entityVpEx).route_id
      = none := by
  have h := one_row_per_entity recordVpEx
  refine ⟨h.1, ?_⟩
  obtain ⟨e, he, hrw, hnull⟩ := h.2.2
    (mkVehiclePositionRow recordVpEx.header recordVpEx.dt entityVpEx)
    (by simp [silver_vehicle_positions, recordVpEx])
  have he1 : e = entityVpEx := by
    simpa [recordVpEx] using he
  subst he1
  exact (hnull rfl).1

/-- C9: the alert-entities pipeline decomposes per entity; an entity whose
alert is populated contributes exactly one `AlertEntityRow` per element of
that alert's `informed_entity` list, and every such row carries the alert's
`cause` and `effect` (and the alert's id). -/
theorem alert_entity_fanout (hd : Option FeedHeader) (d : Option String)
    (pre post : List FeedEntity) (e : FeedEntity) (a : Alert)
    (ha : e.alert = some a) :
    alertEntitiesOfRecord ⟨hd, pre ++ e :: post, d⟩
      = alertEntitiesOfRecord ⟨hd, pre, d⟩ ++ alertEntitiesOfRecord ⟨hd, [e], d⟩
          ++ alertEntitiesOfRecord ⟨hd, post, d⟩ ∧
    (alertEntitiesOfRecord ⟨hd, [e], d⟩).length = a.informed_entity.length ∧
    ∀ row ∈ alertEntitiesOfRecord ⟨hd, [e], d⟩,
      row.cause = a.cause ∧ row.effect = a.effect ∧ row.alert_id = e.id := by
  refine ⟨?_, ?_, ?_⟩
  · simp [alertEntitiesOfRecord, silver_service_alerts,
      silver_service_alerts_entities]
  · simp [alertEntitiesOfRecord, silver_service_alerts,
      silver_service_alerts_entities, mkServiceAlertRow, sparkExplode, ha]
  · intro row hrow
    simp only [alertEntitiesOfRecord, silver_service_alerts,
      silver_service_alerts_entities, List.map_cons, List.map_nil,
      List.flatMap_cons, List.flatMap_nil, List.append_nil,
      List.mem_map] at hrow
    obtain ⟨ie, hie, hrw⟩ := hrow
    subst hrw
    simp [mkAlertEntityRow, mkServiceAlertRow, ha]

/-- Witness for C9: the example alert with two informed entities yields
exactly two rows, both carrying its cause `"STRIKE"` and effect
`"NO_SERVICE"`. -/
theorem alert_entity_fanout_witness :
    (alertEntitiesOfRecord ⟨recordAlertEx.header, [entityAlertEx],
      recordAlertEx.dt⟩).length = 2 ∧
    (alertEntitiesOfRecord ⟨recordAlertEx.header, [entityAlertEx],
      recordAlertEx.dt⟩).map AlertEntityRow.cause
      = [some "STRIKE", some "STRIKE"] := by
  have h := alert_entity_fanout recordAlertEx.header recordAlertEx.dt [] []
    entityAlertEx alertEx rfl
  refine ⟨by rw [h.2.1]; rfl, ?_⟩
  rfl

end RtTransit
